import Mathlib

/-
Verification of the image-service HTTP handlers
(src/services/image-service/app.py) against their specification.

Each Flask handler is embedded as a pure Lean function.  Environment
variables are modelled as `Option String` (absent = `none`); Python
truthiness of such a value (`bool(x)` for `x : str | None`) is `truthy`.
The Prometheus metrics registry is an explicit `MetricsState` threaded
through the handlers that touch it; wall-clock time is an explicit
rational parameter.
-/

/-- The process-wide configuration read from the environment at startup
(`os.getenv` calls at the top of app.py and inside the handlers). -/
structure ServiceConfig where
  JWT_SECRET : Option String
  IMAGE_SERVICE_TOKEN : Option String
  S3_ACCESS_KEY : Option String
  S3_SECRET_KEY : Option String
  S3_BUCKET : Option String
  S3_REGION : Option String
  VERSION : Option String
deriving DecidableEq

/-- Python truthiness of an optional string: `None` and `""` are falsy,
every non-empty string is truthy. -/
def truthy : Option String → Bool
  | none => false
  | some s => !s.isEmpty

/-- Python `x if x else d` / `x or d` on an optional string: the value
itself when truthy, the default `d` otherwise. -/
def pyOrD : Option String → String → String
  | none, d => d
  | some s, d => if s.isEmpty then d else s

/-- The Prometheus metrics registry of app.py: the
`image_requests_total` counter labelled by (method, endpoint), and the
list of samples recorded into the `image_processing_duration_seconds`
histogram. -/
structure MetricsState where
  request_count : String → String → Nat
  processing_time_samples : List ℚ

/-- `request_count.labels(method, endpoint).inc()`. -/
def incrReq (method endpoint : String) (st : MetricsState) : MetricsState :=
  { st with request_count := fun m e =>
      if m = method ∧ e = endpoint then st.request_count m e + 1
      else st.request_count m e }

/-- `with processing_time.time():` records one duration sample. -/
def recordSample (dur : ℚ) (st : MetricsState) : MetricsState :=
  { st with processing_time_samples := dur :: st.processing_time_samples }

/-- Body of the `/health` response. -/
structure HealthBody where
  status : String
  service : String
  version : String
  uptime : ℚ
deriving DecidableEq

/-- Handler `health` (app.py lines 31-39).  `now` is the current
wall-clock time, `start` the recorded process start time; the metrics
state is threaded through to show the handler leaves it untouched. -/
def health (cfg : ServiceConfig) (start now : ℚ) (st : MetricsState) :
    MetricsState × Nat × HealthBody :=
  (st, 200,
    { status := "healthy"
      service := "image-service"
      version := cfg.VERSION.getD "1.0.0"
      uptime := now - start })

/-- Body of the `/ready` response. -/
structure ReadyBody where
  ready : Bool
  message : String
deriving DecidableEq

/-- Handler `ready` (app.py lines 41-50):
`is_ready = all([IMAGE_SERVICE_TOKEN, S3_ACCESS_KEY])`. -/
def ready (cfg : ServiceConfig) : Nat × ReadyBody :=
  let is_ready := truthy cfg.IMAGE_SERVICE_TOKEN && truthy cfg.S3_ACCESS_KEY
  if is_ready then (200, { ready := true, message := "Service ready" })
  else (503, { ready := false, message := "Missing configuration" })

/-- Body of the `/` response. -/
structure IndexBody where
  service : String
  version : String
  endpoints : List String
deriving DecidableEq

/-- Handler `index` (app.py lines 52-66); the version field is the
string literal `'1.0.0'` in the source, so the handler reads no
configuration at all. -/
def index : Nat × IndexBody :=
  (200,
    { service := "image-service"
      version := "1.0.0"
      endpoints :=
        ["/health", "/ready", "/status", "/process", "/storage-info", "/metrics"] })

/-- Body of the `/status` response. -/
structure StatusBody where
  operational : Bool
  timestamp : String
  processed_images : Nat
  using_secrets : Bool
deriving DecidableEq

/-- Handler `status` (app.py lines 68-77). `ts` is the formatted
`datetime.utcnow().isoformat()` value. -/
def status (cfg : ServiceConfig) (ts : String) (st : MetricsState) :
    MetricsState × Nat × StatusBody :=
  let st := incrReq "GET" "/status" st
  (st, 200,
    { operational := true
      timestamp := ts
      processed_images := 42
      using_secrets := truthy cfg.IMAGE_SERVICE_TOKEN && truthy cfg.S3_ACCESS_KEY })

/-- JSON body of a POST /process request: the optional `image` and
`user` fields (`none` = key absent from the object). -/
structure ProcessRequest where
  image : Option String
  user : Option String
deriving DecidableEq

/-- The `storage` sub-object of a ProcessResult. -/
structure StorageField where
  provider : String
  bucket : String
  configured : Bool
deriving DecidableEq

/-- The success body of POST /process. -/
structure ProcessResult where
  processed : Bool
  image : String
  user : String
  operations : List String
  storage : StorageField
  timestamp : String
deriving DecidableEq

/-- Body of a /process response: the 401 error object or a result. -/
inductive ProcessBody where
  | err (error : String)
  | ok (r : ProcessResult)
deriving DecidableEq

/-- Handler `process` (app.py lines 79-110).  `auth` is
`request.headers.get('Authorization')` (`none` = header absent), `body`
is the parsed JSON body (`none` = no JSON body, matching
`request.get_json() or {}`), `ts` the timestamp string, `dur` the
duration measured by the histogram context manager. -/
def process (cfg : ServiceConfig) (auth : Option String)
    (body : Option ProcessRequest) (ts : String) (dur : ℚ)
    (st : MetricsState) : MetricsState × Nat × ProcessBody :=
  let st := incrReq "POST" "/process" st
  if !truthy auth && truthy cfg.IMAGE_SERVICE_TOKEN then
    (st, 401, .err "Unauthorized")
  else
    let data := body.getD { image := none, user := none }
    let image_name := data.image.getD "unknown.jpg"
    let user := data.user.getD "anonymous"
    let result : ProcessResult :=
      { processed := true
        image := image_name
        user := user
        operations := ["resize", "compress", "optimize"]
        storage :=
          { provider := "S3-compatible"
            bucket := pyOrD cfg.S3_BUCKET "default-bucket"
            configured := truthy cfg.S3_ACCESS_KEY }
        timestamp := ts }
    (recordSample dur st, 200, .ok result)

/-- Body of a /storage-info response: the 500 error object or the
configured-storage description. -/
inductive StorageInfoBody where
  | err (error hint : String)
  | ok (configured : Bool) (provider bucket region : String)
      (operations_available : List String) (message : String)
deriving DecidableEq

/-- Handler `storage_info` (app.py lines 112-128). -/
def storage_info (cfg : ServiceConfig) : Nat × StorageInfoBody :=
  if !truthy cfg.S3_ACCESS_KEY then
    (500, .err "Storage not configured"
               "S3 credentials missing from Kubernetes Secrets")
  else
    (200, .ok true "S3-compatible" (pyOrD cfg.S3_BUCKET "default-bucket")
          (cfg.S3_REGION.getD "us-east-1")
          ["upload", "download", "list", "delete"]
          "Using S3 credentials from Kubernetes Secrets")

/-- An empty metrics registry, for concrete evaluations. -/
def metrics0 : MetricsState :=
  { request_count := fun _ _ => 0, processing_time_samples := [] }

/-- A fully configured ServiceConfig, for concrete evaluations. -/
def cfgFull : ServiceConfig :=
  { JWT_SECRET := some "jwt"
    IMAGE_SERVICE_TOKEN := some "token"
    S3_ACCESS_KEY := some "key"
    S3_SECRET_KEY := some "secret"
    S3_BUCKET := some "bucket-a"
    S3_REGION := some "eu-west-1"
    VERSION := some "2.0.0" }

/-- Like `cfgFull` but with a different bucket name. -/
def cfgFullB : ServiceConfig :=
  { cfgFull with S3_BUCKET := some "bucket-b" }

/-- C1: for every configuration, GET /ready returns 200 with
`{ready: true, message: "Service ready"}` exactly when both the service
token and the S3 access key are present (truthy), and 503 with
`{ready: false, message: "Missing configuration"}` exactly otherwise. -/
theorem C1_ready_iff (cfg : ServiceConfig) :
    (ready cfg = (200, { ready := true, message := "Service ready" }) ↔
      truthy cfg.IMAGE_SERVICE_TOKEN = true ∧ truthy cfg.S3_ACCESS_KEY = true) ∧
    (ready cfg = (503, { ready := false, message := "Missing configuration" }) ↔
      ¬(truthy cfg.IMAGE_SERVICE_TOKEN = true ∧ truthy cfg.S3_ACCESS_KEY = true)) := by
  cases h1 : truthy cfg.IMAGE_SERVICE_TOKEN <;>
    cases h2 : truthy cfg.S3_ACCESS_KEY <;>
    simp [ready, h1, h2]

/-- C2 counterexample: the claim "rejected with 401 only if no
Authorization header is present" is false: with a configured service
token, a request that does carry an Authorization header whose value is
the empty string is still rejected with 401, because the source tests
Python truthiness (`not auth_header`), not header presence. -/
theorem C2_counterexample :
    (process cfgFull (some "") none "ts" 0 metrics0).2.1 = 401 ∧
    (some "" : Option String) ≠ none := by
  constructor
  · rfl
  · simp

/-- C2 amended: a POST /process request is rejected with 401
`{error: "Unauthorized"}` exactly when the Authorization header is
absent or empty (Python-falsy) and a service token is configured
(truthy); in particular every request carrying a non-empty header value
is never rejected with 401, whatever the value, and no request is
rejected when no service token is configured. -/
theorem C2_unauthorized_iff (cfg : ServiceConfig) (auth : Option String)
    (body : Option ProcessRequest) (ts : String) (dur : ℚ)
    (st : MetricsState) :
    ((process cfg auth body ts dur st).2.1 = 401 ∧
      (process cfg auth body ts dur st).2.2 = .err "Unauthorized") ↔
    (truthy auth = false ∧ truthy cfg.IMAGE_SERVICE_TOKEN = true) := by
  cases h1 : truthy auth <;> cases h2 : truthy cfg.IMAGE_SERVICE_TOKEN <;>
    simp [process, h1, h2]

/-- C3: every POST /process invocation increments the (POST, /process)
request counter by exactly one, on the 401 path as well as on the
success path, since the increment precedes the authorization check. -/
theorem C3_process_always_counts (cfg : ServiceConfig) (auth : Option String)
    (body : Option ProcessRequest) (ts : String) (dur : ℚ)
    (st : MetricsState) :
    (process cfg auth body ts dur st).1.request_count "POST" "/process" =
      st.request_count "POST" "/process" + 1 := by
  unfold process
  split <;> simp [incrReq, recordSample]

/-- C4: every successful (non-401) POST /process returns 200 with a
result whose operations are exactly ["resize", "compress", "optimize"],
whose storage.configured mirrors S3-access-key presence, whose
storage.bucket is the configured bucket or "default-bucket" when no
bucket is configured, and whose image and user echo the request body,
defaulting to "unknown.jpg" and "anonymous" when the body (or the
field) is absent. -/
theorem C4_process_success (cfg : ServiceConfig) (auth : Option String)
    (body : Option ProcessRequest) (ts : String) (dur : ℚ)
    (st : MetricsState)
    (h : ¬(truthy auth = false ∧ truthy cfg.IMAGE_SERVICE_TOKEN = true)) :
    ∃ r : ProcessResult,
      (process cfg auth body ts dur st).2 = (200, .ok r) ∧
      r.operations = ["resize", "compress", "optimize"] ∧
      r.storage.configured = truthy cfg.S3_ACCESS_KEY ∧
      r.storage.bucket = pyOrD cfg.S3_BUCKET "default-bucket" ∧
      r.image = (body.getD { image := none, user := none }).image.getD "unknown.jpg" ∧
      r.user = (body.getD { image := none, user := none }).user.getD "anonymous" := by
  have hcond : (!truthy auth && truthy cfg.IMAGE_SERVICE_TOKEN) = false := by
    cases ha : truthy auth <;> cases ht : truthy cfg.IMAGE_SERVICE_TOKEN <;>
      simp_all
  refine ⟨{ processed := true
            image := (body.getD { image := none, user := none }).image.getD "unknown.jpg"
            user := (body.getD { image := none, user := none }).user.getD "anonymous"
            operations := ["resize", "compress", "optimize"]
            storage :=
              { provider := "S3-compatible"
                bucket := pyOrD cfg.S3_BUCKET "default-bucket"
                configured := truthy cfg.S3_ACCESS_KEY }
            timestamp := ts }, ?_, rfl, rfl, rfl, rfl, rfl⟩
  simp [process, hcond]

/-- C4 witness: a concrete successful request (authorized header, body
supplying image "cat.jpg" and user "alice") satisfies C4's conclusion. -/
theorem C4_witness :
    ¬(truthy (some "Bearer zzz") = false ∧
       truthy cfgFull.IMAGE_SERVICE_TOKEN = true) ∧
    ∃ r : ProcessResult,
      (process cfgFull (some "Bearer zzz")
        (some { image := some "cat.jpg", user := some "alice" })
        "ts" 0 metrics0).2 = (200, .ok r) ∧
      r.operations = ["resize", "compress", "optimize"] ∧
      r.storage.configured = truthy cfgFull.S3_ACCESS_KEY ∧
      r.storage.bucket = pyOrD cfgFull.S3_BUCKET "default-bucket" ∧
      r.image = ((some { image := some "cat.jpg", user := some "alice" } :
          Option ProcessRequest).getD
            { image := none, user := none }).image.getD "unknown.jpg" ∧
      r.user = ((some { image := some "cat.jpg", user := some "alice" } :
          Option ProcessRequest).getD
            { image := none, user := none }).user.getD "anonymous" :=
  ⟨by decide, C4_process_success cfgFull (some "Bearer zzz")
      (some { image := some "cat.jpg", user := some "alice" })
      "ts" 0 metrics0 (by decide)⟩

/-- C5: for every configuration, timestamp and metrics state, GET
/status returns 200 with processed_images equal to the fixed constant
42 (independent of the counters, which are quantified over) and
using_secrets equal to the conjunction of token and S3-key presence. -/
theorem C5_status_constant (cfg : ServiceConfig) (ts : String)
    (st : MetricsState) :
    (status cfg ts st).2 = (200,
      { operational := true
        timestamp := ts
        processed_images := 42
        using_secrets := truthy cfg.IMAGE_SERVICE_TOKEN &&
          truthy cfg.S3_ACCESS_KEY }) := rfl

/-- C6: GET /storage-info returns 500 with the "Storage not configured"
error exactly when no S3 access key is configured, and 200 with the
full storage description (bucket defaulted to "default-bucket", region
from S3_REGION defaulted to "us-east-1") exactly when one is. -/
theorem C6_storage_info_iff (cfg : ServiceConfig) :
    (storage_info cfg = (500,
        .err "Storage not configured"
             "S3 credentials missing from Kubernetes Secrets") ↔
      truthy cfg.S3_ACCESS_KEY = false) ∧
    (storage_info cfg = (200,
        .ok true "S3-compatible" (pyOrD cfg.S3_BUCKET "default-bucket")
           (cfg.S3_REGION.getD "us-east-1")
           ["upload", "download", "list", "delete"]
           "Using S3 credentials from Kubernetes Secrets") ↔
      truthy cfg.S3_ACCESS_KEY = true) := by
  cases hk : truthy cfg.S3_ACCESS_KEY <;> simp [storage_info, hk]

/-- C7: GET /ready depends only on the presence of the service token
and the S3 access key: two configurations agreeing on those two
presence bits (but possibly differing in bucket or any other field)
produce the identical status code and body. -/
theorem C7_ready_noninterference (c1 c2 : ServiceConfig)
    (h1 : truthy c1.IMAGE_SERVICE_TOKEN = truthy c2.IMAGE_SERVICE_TOKEN)
    (h2 : truthy c1.S3_ACCESS_KEY = truthy c2.S3_ACCESS_KEY) :
    ready c1 = ready c2 := by
  simp [ready, h1, h2]

/-- C7 witness: two concrete configurations differing only in the
bucket name get identical /ready responses. -/
theorem C7_witness :
    truthy cfgFull.IMAGE_SERVICE_TOKEN = truthy cfgFullB.IMAGE_SERVICE_TOKEN ∧
    truthy cfgFull.S3_ACCESS_KEY = truthy cfgFullB.S3_ACCESS_KEY ∧
    cfgFull.S3_BUCKET ≠ cfgFullB.S3_BUCKET ∧
    ready cfgFull = ready cfgFullB :=
  ⟨by decide, by decide, by decide,
    C7_ready_noninterference cfgFull cfgFullB (by decide) (by decide)⟩

/-- C8: GET /health always returns 200 and leaves the metrics state
exactly as it was: no counter is incremented and no duration sample is
recorded. -/
theorem C8_health_unmetered (cfg : ServiceConfig) (start now : ℚ)
    (st : MetricsState) :
    (health cfg start now st).1 = st ∧
    (health cfg start now st).2.1 = 200 := ⟨rfl, rfl⟩

/-- C9: within one process lifetime (fixed start time), the uptime
reported by GET /health is monotonically non-decreasing in the
wall-clock time of the call, whatever the metrics state of each call. -/
theorem C9_uptime_monotone (cfg : ServiceConfig) (start t1 t2 : ℚ)
    (st1 st2 : MetricsState) (h : t1 ≤ t2) :
    ((health cfg start t1 st1).2.2).uptime ≤
      ((health cfg start t2 st2).2.2).uptime := by
  simpa [health] using sub_le_sub_right h start

/-- C9 witness: two concrete health calls at times 1 and 2 after a
start at 0 report non-decreasing uptime. -/
theorem C9_witness :
    (1 : ℚ) ≤ 2 ∧
    ((health cfgFull 0 1 metrics0).2.2).uptime ≤
      ((health cfgFull 0 2 metrics0).2.2).uptime :=
  ⟨by norm_num, C9_uptime_monotone cfgFull 0 1 2 metrics0 metrics0 (by norm_num)⟩

/-- C10: GET / reports the hardcoded version "1.0.0" regardless of
configuration, while GET /health reports the VERSION environment
variable; whenever VERSION is set to a value other than "1.0.0" the
two endpoints report different versions for the same process. -/
theorem C10_version_mismatch (cfg : ServiceConfig) (v : String)
    (start now : ℚ) (st : MetricsState)
    (hv : cfg.VERSION = some v) (hne : v ≠ "1.0.0") :
    index.2.version = "1.0.0" ∧
    ((health cfg start now st).2.2).version = v ∧
    ((health cfg start now st).2.2).version ≠ index.2.version := by
  refine ⟨rfl, by simp [health, hv], ?_⟩
  simp [health, index, hv, hne]

/-- C10 witness: with VERSION set to "2.0.0", the index endpoint still
reports "1.0.0" while health reports "2.0.0". -/
theorem C10_witness :
    cfgFull.VERSION = some "2.0.0" ∧ "2.0.0" ≠ "1.0.0" ∧
    (index.2.version = "1.0.0" ∧
     ((health cfgFull 0 1 metrics0).2.2).version = "2.0.0" ∧
     ((health cfgFull 0 1 metrics0).2.2).version ≠ index.2.version) :=
  ⟨rfl, by decide,
    C10_version_mismatch cfgFull "2.0.0" 0 1 metrics0 rfl (by decide)⟩
